import Mathlib

/-!
Verification of the two-token NEAR AMM contract (src/contract/src/lib.rs).

The contract state and its operations are embedded shallowly:
machine integers (the u128 Balance type) become Nat together with explicit
bounds, and every arithmetic step the Rust code performs with overflow
checking (checked addition, 10.pow, multiplication, the U256 narrowing
as_u128, and integer division) is modelled as an Option-valued computation
where none stands for the runtime abort (panic) of the whole host call.
Account ids are opaque strings compared for equality, exactly as the
contract compares AccountId values.
-/

/-- The number of values of the u128 Balance type: arithmetic whose result
reaches this bound panics under the checked semantics the contract's own
unit tests run with. -/
def u128Bound : Nat := 2 ^ 128

/-- Checked u128 addition: some of the sum when it fits, none for the
overflow panic. -/
def checkedAdd (a b : Nat) : Option Nat :=
  if a + b < u128Bound then some (a + b) else none

/-- Checked u128 multiplication: some of the product when it fits, none for
the overflow panic. -/
def checkedMul (a b : Nat) : Option Nat :=
  if a * b < u128Bound then some (a * b) else none

/-- Checked 10_u128.pow d: some of the power when it fits in u128, none for
the overflow panic (d at least 39). -/
def checkedPow10 (d : Nat) : Option Nat :=
  if 10 ^ d < u128Bound then some (10 ^ d) else none

/-- TokenMetadata from lib.rs: display name, symbol and decimals of one
token. Decimals is a u8 in the source; its value is all the ratio logic
reads. -/
structure TokenMetadata where
  name : String
  symbol : String
  decimals : Nat
deriving DecidableEq, Repr

/-- Token from lib.rs: one liquidity-pool slot, holding the external token
contract address, the accounted balance, and optional metadata. -/
structure Token where
  address : String
  balance : Nat
  metadata : Option TokenMetadata
deriving DecidableEq, Repr

/-- AMM from lib.rs: the owner account and the two token slots
(tokens[0] and tokens[1] of the source vector). -/
structure AMM where
  owner : String
  token0 : Token
  token1 : Token
deriving DecidableEq, Repr

/-- Indexing self.tokens[i] for the two indices the contract ever uses
(0 and 1). -/
def AMM.tok (s : AMM) (i : Nat) : Token :=
  if i = 0 then s.token0 else s.token1

/-- Writing self.tokens[i].balance = b for i in 0, 1. -/
def AMM.setBal (s : AMM) (i : Nat) (b : Nat) : AMM :=
  if i = 0 then { s with token0 := { s.token0 with balance := b } }
  else { s with token1 := { s.token1 with balance := b } }

/-- get_token_index from lib.rs: index 0 when the address equals slot 0's
address, and index 1 otherwise; the function performs no membership check,
so every other address (known or not) maps to slot 1. -/
def get_token_index (s : AMM) (token : String) : Nat :=
  if token = s.token0.address then 0 else 1

/-- get_balance from lib.rs: looks the address up with get_token_index and
returns that slot's balance; the function is total and never fails. -/
def get_balance (s : AMM) (token : String) : Nat :=
  (s.tok (get_token_index s token)).balance

/-- get_ratio from lib.rs: requires both slots' metadata, divides each
balance by 10 to the power of its decimals in plain u128 arithmetic, and
multiplies the two normalized balances in plain u128 arithmetic; the power
and the product abort on overflow, whereas a missing metadata aborts at the
require guard. none stands for any of these aborts. -/
def get_ratio (s : AMM) : Option Nat :=
  match s.token0.metadata, s.token1.metadata with
  | some m0, some m1 =>
    match checkedPow10 m0.decimals, checkedPow10 m1.decimals with
    | some p0, some p1 =>
      checkedMul (s.token0.balance / p0) (s.token1.balance / p1)
    | _, _ => none
  | _, _ => none

/-- The quote computed inside swap (lib.rs lines 179 to 190): new balance
of the input side is a checked u128 addition, the product
balance_out * amount is taken in U256 (exact, since both factors are u128
values), divided by the new input balance (panic when that is zero), and
narrowed back with as_u128 (panic when the quotient exceeds u128, which the
theorems below show cannot happen for u128-sized balance_out). -/
def quote (balance_in balance_out amount : Nat) : Option Nat :=
  match checkedAdd balance_in amount with
  | none => none
  | some nba =>
    if nba = 0 then none
    else
      let q := balance_out * amount / nba
      if q < u128Bound then some q else none

/-- The data carried by the promise chain that swap (lib.rs) builds: the
ft_transfer call issued on the output token, and the continuation arguments
(new_balance_a, new_balance_b, amount) registered for swap_callback. -/
structure SwapCall where
  transfer_token : String
  transfer_to : String
  transfer_amount : Nat
  new_balance_a : Nat
  new_balance_b : Nat
  amount : Nat
deriving DecidableEq, Repr

/-- swap from lib.rs: token_out = 1 - token_in, computes the quote, requires
it not to exceed the output reserve and to be positive, precomputes the
output side's new balance, and issues the external transfer with the
continuation data; none is the abort of any failed require or arithmetic
panic. The pool state is not mutated here. -/
def swap (s : AMM) (sender_id : String) (token_in : Nat) (amount : Nat) :
    Option SwapCall :=
  let token_out := 1 - token_in
  match checkedAdd (s.tok token_in).balance amount with
  | none => none
  | some new_balance_a =>
    if new_balance_a = 0 then none
    else
      let token_out_amount := (s.tok token_out).balance * amount / new_balance_a
      if token_out_amount < u128Bound then
        if token_out_amount ≤ (s.tok token_out).balance then
          if token_out_amount > 0 then
            some { transfer_token := (s.tok token_out).address
                   transfer_to := sender_id
                   transfer_amount := token_out_amount
                   new_balance_a := new_balance_a
                   new_balance_b := (s.tok token_out).balance - token_out_amount
                   amount := amount }
          else none
        else none
      else none

/-- swap_callback from lib.rs: when the external transfer failed, the state
is untouched and the deposited amount is returned as refundable; when it
succeeded, tokens[0].balance is set to balance_a and tokens[1].balance to
balance_b (positionally, whatever the input slot was), and zero is returned
as refundable. -/
def swap_callback (s : AMM) (balance_a balance_b amount : Nat)
    (call_ok : Bool) : AMM × Nat :=
  if call_ok = false then (s, amount)
  else
    ({ s with token0 := { s.token0 with balance := balance_a }
              token1 := { s.token1 with balance := balance_b } }, 0)

/-- owner_deposit from lib.rs: checked u128 increment of the input slot's
balance. -/
def owner_deposit (s : AMM) (token_in : Nat) (amount : Nat) : Option AMM :=
  match checkedAdd (s.tok token_in).balance amount with
  | none => none
  | some b => some (s.setBal token_in b)

/-- The value ft_on_transfer produces when it does not abort: either an
immediate refundable value (the deposit path, no external call issued), or
a pending promise chain carrying the external transfer of a swap. -/
inductive FtResult where
  | value (refund : Nat)
  | pending (call : SwapCall)
deriving DecidableEq, Repr

/-- ft_on_transfer from lib.rs: requires the predecessor (the token
contract delivering the funds) to be one of the two configured addresses
and the amount to be positive, resolves the slot, and either credits an
owner deposit synchronously or initiates a swap; none is the abort of the
whole inbound call (all state rolled back, no external call issued). -/
def ft_on_transfer (s : AMM) (predecessor_id sender_id : String)
    (amount : Nat) : Option (AMM × FtResult) :=
  if predecessor_id = s.token0.address ∨ predecessor_id = s.token1.address then
    if amount > 0 then
      let token_in := get_token_index s predecessor_id
      if sender_id = s.owner then
        match owner_deposit s token_in amount with
        | none => none
        | some s2 => some (s2, FtResult.value 0)
      else
        match swap s sender_id token_in amount with
        | none => none
        | some c => some (s, FtResult.pending c)
    else none
  else none

/-- A concrete pool for the slot-1 swap evaluation: slot 0 holds 1000
units of token-a, slot 1 holds 2000 units of token-b. -/
def poolSlot1Swap : AMM :=
  { owner := "owner"
    token0 := { address := "token-a", balance := 1000, metadata := none }
    token1 := { address := "token-b", balance := 2000, metadata := none } }

/-- A concrete pool for the unknown-address balance query: slot 0 holds 7,
slot 1 holds 42. -/
def poolUnknownQuery : AMM :=
  { owner := "owner"
    token0 := { address := "token-a", balance := 7, metadata := none }
    token1 := { address := "token-b", balance := 42, metadata := none } }

/-- A concrete pool whose slot 0 already holds the u128 maximum, used to
exhibit the owner-deposit overflow abort. -/
def poolMaxBalance : AMM :=
  { owner := "owner"
    token0 := { address := "token-a", balance := 2 ^ 128 - 1, metadata := none }
    token1 := { address := "token-b", balance := 0, metadata := none } }

/-- A concrete pool with small balances for the owner-deposit witness. -/
def poolDepositSmall : AMM :=
  { owner := "owner"
    token0 := { address := "token-a", balance := 100, metadata := none }
    token1 := { address := "token-b", balance := 5, metadata := none } }

/-- A concrete pool for the rejection witness: balances 11 and 13. -/
def poolReject : AMM :=
  { owner := "owner"
    token0 := { address := "token-a", balance := 11, metadata := none }
    token1 := { address := "token-b", balance := 13, metadata := none } }

/-- A concrete pool with both metadata set and slot 0 declaring 39
decimals, on which the ratio's 10 to the 39 power overflows u128. -/
def poolDecimals39 : AMM :=
  { owner := "owner"
    token0 := { address := "token-a", balance := 5,
                metadata := some { name := "A", symbol := "A", decimals := 39 } }
    token1 := { address := "token-b", balance := 5,
                metadata := some { name := "B", symbol := "B", decimals := 0 } } }

/-- A concrete pool with both metadata set and slot 1 declaring 40
decimals, on which the ratio's power computation overflows u128. -/
def poolDecimals40 : AMM :=
  { owner := "owner"
    token0 := { address := "token-a", balance := 9,
                metadata := some { name := "A", symbol := "A", decimals := 1 } }
    token1 := { address := "token-b", balance := 9,
                metadata := some { name := "B", symbol := "B", decimals := 40 } } }

/-- A concrete pool with zero decimals on both sides and balances of
2 to the 64, whose normalized product equals 2 to the 128 and therefore
overflows the plain u128 multiplication in the ratio. -/
def poolProductOverflow : AMM :=
  { owner := "owner"
    token0 := { address := "token-a", balance := 2 ^ 64,
                metadata := some { name := "A", symbol := "A", decimals := 0 } }
    token1 := { address := "token-b", balance := 2 ^ 64,
                metadata := some { name := "B", symbol := "B", decimals := 0 } } }

/-- The spec's ratio example pool: reserves 1_000_000_000 at 8 decimals
and 1_000_000_000_000_000_000 at 16 decimals. -/
def poolRatioExample : AMM :=
  { owner := "owner"
    token0 := { address := "token-a", balance := 1000000000,
                metadata := some { name := "token-a", symbol := "TA", decimals := 8 } }
    token1 := { address := "token-b", balance := 1000000000000000000,
                metadata := some { name := "token-b", symbol := "TB", decimals := 16 } } }

/-- A concrete in-range ratio pool for witnesses: balance 500 at 2
decimals and balance 5 at 0 decimals, normalized product 25. -/
def poolRatioSmall : AMM :=
  { owner := "owner"
    token0 := { address := "token-a", balance := 500,
                metadata := some { name := "A", symbol := "A", decimals := 2 } }
    token1 := { address := "token-b", balance := 5,
                metadata := some { name := "B", symbol := "B", decimals := 0 } } }

/-- The narrowed quotient never exceeds the output reserve: the division by
the enlarged input reserve cancels at most the amount factor. -/
lemma mul_div_le_left (R a d : Nat) (hd : 0 < d) (had : a ≤ d) :
    R * a / d ≤ R := by
  calc R * a / d ≤ R * d / d :=
        Nat.div_le_div_right (Nat.mul_le_mul_left R had)
    _ = R := Nat.mul_div_cancel _ hd

/-- The swap quotient is monotone in the input amount: enlarging the amount
enlarges both the numerator and the denominator by the same difference, and
the floor quotient can only grow. -/
lemma quote_div_mono_amount (R bin a1 a2 : Nat) (h12 : a1 ≤ a2)
    (h1 : 0 < bin + a1) :
    R * a1 / (bin + a1) ≤ R * a2 / (bin + a2) := by
  have h2 : 0 < bin + a2 := lt_of_lt_of_le h1 (by omega)
  set q1 := R * a1 / (bin + a1) with hq1
  have hfloor : q1 * (bin + a1) ≤ R * a1 := Nat.div_mul_le_self _ _
  have hle : q1 ≤ R := by
    have := mul_div_le_left R a1 (bin + a1) h1 (by omega)
    simpa [hq1] using this
  have hkey : q1 * (bin + a2) ≤ R * a2 := by
    have e1 : q1 * (bin + a2) = q1 * (bin + a1) + q1 * (a2 - a1) := by
      rw [← Nat.mul_add]
      congr 1
      omega
    have e2 : R * a1 + R * (a2 - a1) = R * a2 := by
      rw [← Nat.mul_add]
      congr 1
      omega
    calc q1 * (bin + a2) = q1 * (bin + a1) + q1 * (a2 - a1) := e1
      _ ≤ R * a1 + R * (a2 - a1) :=
          Nat.add_le_add hfloor (Nat.mul_le_mul_right _ hle)
      _ = R * a2 := e2
  exact (Nat.le_div_iff_mul_le h2).2 hkey

/-- Under a non-overflowing, nonzero input-side sum and a u128 output
reserve, the quote computation succeeds and returns the exact floor
formula. -/
lemma quote_eq_some (bin bout a : Nat) (hpos : 0 < bin + a)
    (hfit : bin + a < u128Bound) (hout : bout < u128Bound) :
    quote bin bout a = some (bout * a / (bin + a)) := by
  have hq : bout * a / (bin + a) ≤ bout :=
    mul_div_le_left bout a (bin + a) hpos (by omega)
  unfold quote checkedAdd
  rw [if_pos hfit]
  simp only [if_neg (by omega : ¬ bin + a = 0)]
  rw [if_pos (lt_of_le_of_lt hq hout)]

/-- Inversion of a successful quote: the result is the exact floor formula
and the input-side sum both fits in u128 and is nonzero. -/
lemma quote_some_inv (bin bout a o : Nat) (h : quote bin bout a = some o) :
    o = bout * a / (bin + a) ∧ bin + a < u128Bound ∧ 0 < bin + a := by
  by_cases hfit : bin + a < u128Bound
  · by_cases hz : bin + a = 0
    · have hb : (0 : Nat) < u128Bound := by decide
      simp [quote, checkedAdd, hfit, hz, hb] at h
    · by_cases hq : bout * a / (bin + a) < u128Bound
      · simp [quote, checkedAdd, hfit, hz, hq] at h
        exact ⟨h.symm, hfit, Nat.pos_of_ne_zero hz⟩
      · simp [quote, checkedAdd, hfit, hz, hq] at h
  · simp [quote, checkedAdd, hfit] at h

/-- C3: for every swap attempt whose asynchronous external transfer fails,
swap_callback performs no balance mutation — the state returned is the
pre-attempt state itself, so both slots' balances are bit-for-bit
unchanged — and the originally deposited amount is reported back as
refundable. -/
theorem C3_failed_transfer_rolls_back (s : AMM)
    (balance_a balance_b amount : Nat) :
    swap_callback s balance_a balance_b amount false = (s, amount) := rfl

/-- C4 counterexample: the claim quantifies the quote over all u128
reserves and amounts, including values near the maximum, but at reserve
Rin = 2 ^ 128 - 1 and amount 1 the plain u128 addition
balance_in + amount overflows, so the quote computation panics (none)
instead of returning a value. -/
theorem C4_counterexample_add_overflow : quote (2 ^ 128 - 1) 5 1 = none := by
  decide

/-- C4 amended: whenever the input-side sum Rin + amount fits in u128 and
is nonzero (and the output reserve is a u128 value), the quote computation
neither wraps nor panics and the result is at most Rout. -/
theorem C4_quote_no_overflow (Rin Rout a : Nat) (hpos : 0 < Rin + a)
    (hfit : Rin + a < u128Bound) (hout : Rout < u128Bound) :
    ∃ out, quote Rin Rout a = some out ∧ out ≤ Rout :=
  ⟨Rout * a / (Rin + a), quote_eq_some Rin Rout a hpos hfit hout,
    mul_div_le_left Rout a (Rin + a) hpos (Nat.le_add_left a Rin)⟩

/-- C4 witness: at Rin = Rout = amount = u128 maximum divided by two (the
value the contract's own overflow test uses) the quote succeeds and
respects the bound. -/
theorem C4_quote_no_overflow_witness :
    0 < 2 ^ 127 - 1 + (2 ^ 127 - 1) ∧
    2 ^ 127 - 1 + (2 ^ 127 - 1) < u128Bound ∧
    2 ^ 127 - 1 < u128Bound ∧
    ∃ out, quote (2 ^ 127 - 1) (2 ^ 127 - 1) (2 ^ 127 - 1) = some out ∧
      out ≤ 2 ^ 127 - 1 :=
  ⟨by decide, by decide, by decide,
    C4_quote_no_overflow (2 ^ 127 - 1) (2 ^ 127 - 1) (2 ^ 127 - 1)
      (by decide) (by decide) (by decide)⟩

/-- C5: for positive amount with a representable input-side sum (and a
u128 output reserve), the quote equals the exact floor of
balance_out * amount / (balance_in + amount), the product being exact
because it is taken in the 256-bit domain. -/
theorem C5_quote_exact_floor (bin bout a : Nat) (ha : 0 < a)
    (hfit : bin + a < u128Bound) (hout : bout < u128Bound) :
    quote bin bout a = some (bout * a / (bin + a)) :=
  quote_eq_some bin bout a (by omega) hfit hout

/-- C5 witness: the spec's swap example, input 100_000_000_000_000_000 on
the side whose reserve is 1_000_000_000_000_000_000 with the other reserve
at 1_000_000_000. -/
theorem C5_quote_exact_floor_witness :
    0 < 100000000000000000 ∧
    1000000000000000000 + 100000000000000000 < u128Bound ∧
    1000000000 < u128Bound ∧
    quote 1000000000000000000 1000000000 100000000000000000 =
      some (1000000000 * 100000000000000000 /
        (1000000000000000000 + 100000000000000000)) ∧
    1000000000 * 100000000000000000 /
        (1000000000000000000 + 100000000000000000) = 90909090 :=
  ⟨by decide, by decide, by decide,
    C5_quote_exact_floor 1000000000000000000 1000000000 100000000000000000
      (by decide) (by decide) (by decide), by decide⟩

/-- C6: every successful quote output is at most the output reserve (and
being a natural number it is at least zero), and successful quote outputs
are monotone non-decreasing in the input amount and non-decreasing in the
output reserve. -/
theorem C6_quote_bounds_and_monotone :
    (∀ Rin Rout a out, 0 < a → quote Rin Rout a = some out → out ≤ Rout) ∧
    (∀ Rin Rout a1 a2 o1 o2, 0 < a1 → a1 ≤ a2 →
      quote Rin Rout a1 = some o1 → quote Rin Rout a2 = some o2 →
      o1 ≤ o2) ∧
    (∀ Rin R1 R2 a o1 o2, 0 < a → R1 ≤ R2 →
      quote Rin R1 a = some o1 → quote Rin R2 a = some o2 → o1 ≤ o2) := by
  refine ⟨?_, ?_, ?_⟩
  · intro Rin Rout a out _ h
    obtain ⟨ho, _, hpos⟩ := quote_some_inv Rin Rout a out h
    exact ho ▸ mul_div_le_left Rout a (Rin + a) hpos (Nat.le_add_left a Rin)
  · intro Rin Rout a1 a2 o1 o2 _ h12 h1 h2
    obtain ⟨ho1, _, hpos1⟩ := quote_some_inv Rin Rout a1 o1 h1
    obtain ⟨ho2, _, _⟩ := quote_some_inv Rin Rout a2 o2 h2
    rw [ho1, ho2]
    exact quote_div_mono_amount Rout Rin a1 a2 h12 hpos1
  · intro Rin R1 R2 a o1 o2 _ hR h1 h2
    obtain ⟨ho1, _, _⟩ := quote_some_inv Rin R1 a o1 h1
    obtain ⟨ho2, _, _⟩ := quote_some_inv Rin R2 a o2 h2
    rw [ho1, ho2]
    exact Nat.div_le_div_right (Nat.mul_le_mul_right a hR)

/-- C1: evaluation at the failing input. A swap of 1000 units into input
slot 1 computes new_balance_in = 3000 for slot 1 and
new_balance_out = 667 for slot 0 and carries them in the continuation; on
transfer success the callback then commits tokens[0].balance = 3000 and
tokens[1].balance = 667 — positionally, the reverse of the claimed
balance[input_slot] = new_balance_in and
balance[output_slot] = new_balance_out — while reporting zero refundable. -/
theorem C1_slot1_callback_commits_crossed :
    swap poolSlot1Swap "alice" 1 1000 =
      some { transfer_token := "token-a", transfer_to := "alice",
             transfer_amount := 333, new_balance_a := 3000,
             new_balance_b := 667, amount := 1000 } ∧
    (swap_callback poolSlot1Swap 3000 667 1000 true).1.token0.balance = 3000 ∧
    (swap_callback poolSlot1Swap 3000 667 1000 true).1.token1.balance = 667 ∧
    (swap_callback poolSlot1Swap 3000 667 1000 true).2 = 0 :=
  ⟨by decide, rfl, rfl, rfl⟩

/-- C2 counterexample: token-c matches neither configured address, yet
get_balance does not fail — get_token_index maps every address other than
slot 0's to index 1, so the query returns slot 1's balance 42. -/
theorem C2_counterexample_unknown_token_returns_slot1 :
    "token-c" ≠ poolUnknownQuery.token0.address ∧
    "token-c" ≠ poolUnknownQuery.token1.address ∧
    get_balance poolUnknownQuery "token-c" = 42 := by
  refine ⟨by decide, by decide, rfl⟩

/-- C2 amended: get_balance is total and never raises an UnknownToken
condition: it returns slot 0's balance exactly when the address equals
slot 0's address, and slot 1's balance for every other address, matching
or not. -/
theorem C2_get_balance_total (s : AMM) (addr : String) :
    (addr = s.token0.address → get_balance s addr = s.token0.balance) ∧
    (addr ≠ s.token0.address → get_balance s addr = s.token1.balance) := by
  constructor <;> intro h <;> simp [get_balance, get_token_index, AMM.tok, h]

/-- C2 witness: the amended description applied to the concrete pool at the
unknown address token-z. -/
theorem C2_get_balance_total_witness :
    ("token-z" : String) ≠ poolUnknownQuery.token0.address ∧
    get_balance poolUnknownQuery "token-z" = poolUnknownQuery.token1.balance :=
  ⟨by decide, (C2_get_balance_total poolUnknownQuery "token-z").2 (by decide)⟩

/-- C6 witness: the bound and the amount-monotonicity applied at reserves
(1000, 1000) with amounts 500 and 1000. -/
theorem C6_quote_bounds_and_monotone_witness :
    quote 1000 1000 500 = some 333 ∧ quote 1000 1000 1000 = some 500 ∧
    333 ≤ 1000 ∧ 333 ≤ 500 :=
  ⟨by decide, by decide,
    C6_quote_bounds_and_monotone.1 1000 1000 500 333 (by decide) (by decide),
    C6_quote_bounds_and_monotone.2.1 1000 1000 500 1000 333 500 (by decide)
      (by decide) (by decide) (by decide)⟩

/-- get_token_index only ever produces the two slot indices. -/
lemma get_token_index_mem (s : AMM) (t : String) :
    get_token_index s t = 0 ∨ get_token_index s t = 1 := by
  unfold get_token_index
  split
  · exact Or.inl rfl
  · exact Or.inr rfl

/-- Writing one slot's balance changes exactly that field: the written slot
keeps its address and metadata, the other slot is untouched, and the owner
is untouched. -/
lemma setBal_frame (s : AMM) (i b : Nat) (hi : i = 0 ∨ i = 1) :
    ((s.setBal i b).tok i).balance = b ∧
    (s.setBal i b).tok (1 - i) = s.tok (1 - i) ∧
    ((s.setBal i b).tok i).address = (s.tok i).address ∧
    ((s.setBal i b).tok i).metadata = (s.tok i).metadata ∧
    (s.setBal i b).owner = s.owner := by
  rcases hi with h | h <;> subst h <;> simp [AMM.setBal, AMM.tok]

/-- The owner path of ft_on_transfer: with a supported caller, a positive
amount, the owner as sender and a non-overflowing balance, the call credits
the matching slot and returns the synchronous zero refund. -/
lemma ft_on_transfer_owner_eq (s : AMM) (pred sender : String) (amount : Nat)
    (hsupp : pred = s.token0.address ∨ pred = s.token1.address)
    (hown : sender = s.owner) (hpos : 0 < amount)
    (hfit : (s.tok (get_token_index s pred)).balance + amount < u128Bound) :
    ft_on_transfer s pred sender amount =
      some (s.setBal (get_token_index s pred)
        ((s.tok (get_token_index s pred)).balance + amount),
        FtResult.value 0) := by
  simp [ft_on_transfer, owner_deposit, checkedAdd, hsupp, hown, hpos, hfit]

/-- C7 counterexample: an owner deposit from a supported caller whose
amount would push the slot balance past the u128 maximum aborts the whole
inbound call (the checked increment panics), so no balance increases and no
zero refundable value is returned. -/
theorem C7_counterexample_deposit_overflow_aborts :
    ft_on_transfer poolMaxBalance "token-a" "owner" 1 = none := by decide

/-- C7 amended: for every inbound transfer notification with the owner as
sender, a supported caller, a positive amount and a non-overflowing slot
balance, the matching slot's balance increases by exactly the amount, the
other slot, the written slot's address and metadata, and the owner are all
unchanged, and the call returns the synchronous zero refundable value (no
external call is issued: the result is an immediate value, not a pending
promise). -/
theorem C7_owner_deposit_frame (s : AMM) (pred sender : String)
    (amount : Nat)
    (hsupp : pred = s.token0.address ∨ pred = s.token1.address)
    (hown : sender = s.owner) (hpos : 0 < amount)
    (hfit : (s.tok (get_token_index s pred)).balance + amount < u128Bound) :
    ∃ s2, ft_on_transfer s pred sender amount = some (s2, FtResult.value 0) ∧
      (s2.tok (get_token_index s pred)).balance =
        (s.tok (get_token_index s pred)).balance + amount ∧
      s2.tok (1 - get_token_index s pred) =
        s.tok (1 - get_token_index s pred) ∧
      (s2.tok (get_token_index s pred)).address =
        (s.tok (get_token_index s pred)).address ∧
      (s2.tok (get_token_index s pred)).metadata =
        (s.tok (get_token_index s pred)).metadata ∧
      s2.owner = s.owner := by
  obtain ⟨h1, h2, h3, h4, h5⟩ :=
    setBal_frame s (get_token_index s pred)
      ((s.tok (get_token_index s pred)).balance + amount)
      (get_token_index_mem s pred)
  exact ⟨_, ft_on_transfer_owner_eq s pred sender amount hsupp hown hpos hfit,
    h1, h2, h3, h4, h5⟩

/-- C7 witness: the amended deposit description applied to the concrete
small pool, crediting 50 units of token-a to slot 0. -/
theorem C7_owner_deposit_frame_witness :
    ("token-a" = poolDepositSmall.token0.address ∨
      "token-a" = poolDepositSmall.token1.address) ∧
    ∃ s2, ft_on_transfer poolDepositSmall "token-a" "owner" 50 =
        some (s2, FtResult.value 0) ∧
      (s2.tok (get_token_index poolDepositSmall "token-a")).balance =
        (poolDepositSmall.tok
          (get_token_index poolDepositSmall "token-a")).balance + 50 ∧
      s2.tok (1 - get_token_index poolDepositSmall "token-a") =
        poolDepositSmall.tok
          (1 - get_token_index poolDepositSmall "token-a") ∧
      (s2.tok (get_token_index poolDepositSmall "token-a")).address =
        (poolDepositSmall.tok
          (get_token_index poolDepositSmall "token-a")).address ∧
      (s2.tok (get_token_index poolDepositSmall "token-a")).metadata =
        (poolDepositSmall.tok
          (get_token_index poolDepositSmall "token-a")).metadata ∧
      s2.owner = poolDepositSmall.owner :=
  ⟨Or.inl (by decide),
    C7_owner_deposit_frame poolDepositSmall "token-a" "owner" 50
      (Or.inl (by decide)) (by decide) (by decide) (by decide)⟩

/-- C8: an inbound transfer notification whose caller matches neither
configured token address, or whose amount is zero, makes the whole inbound
call abort (none): the state is discarded unmutated and no external call is
issued. -/
theorem C8_reject_unsupported_or_zero (s : AMM) (pred sender : String)
    (amount : Nat)
    (h : (pred ≠ s.token0.address ∧ pred ≠ s.token1.address) ∨ amount = 0) :
    ft_on_transfer s pred sender amount = none := by
  rcases h with ⟨h0, h1⟩ | h0
  · simp [ft_on_transfer, h0, h1]
  · simp [ft_on_transfer, h0]

/-- C8 witness: the rejection applied to the concrete pool, once for an
unknown caller and once for a zero amount. -/
theorem C8_reject_unsupported_or_zero_witness :
    ft_on_transfer poolReject "token-z" "alice" 5 = none ∧
    ft_on_transfer poolReject "token-a" "alice" 0 = none :=
  ⟨C8_reject_unsupported_or_zero poolReject "token-z" "alice" 5
      (Or.inl ⟨by decide, by decide⟩),
    C8_reject_unsupported_or_zero poolReject "token-a" "alice" 0
      (Or.inr rfl)⟩

/-- When both metadata are present and the power and product all fit in
u128, get_ratio returns the exact product of the normalized balances. -/
lemma get_ratio_eq_of_fits (s : AMM) (m0 m1 : TokenMetadata)
    (h0 : s.token0.metadata = some m0) (h1 : s.token1.metadata = some m1)
    (hp0 : 10 ^ m0.decimals < u128Bound)
    (hp1 : 10 ^ m1.decimals < u128Bound)
    (hprod : (s.token0.balance / 10 ^ m0.decimals) *
      (s.token1.balance / 10 ^ m1.decimals) < u128Bound) :
    get_ratio s = some ((s.token0.balance / 10 ^ m0.decimals) *
      (s.token1.balance / 10 ^ m1.decimals)) := by
  simp [get_ratio, h0, h1, checkedPow10, checkedMul, hp0, hp1, hprod]

/-- With either slot's metadata missing, get_ratio aborts at its require
guards. -/
lemma get_ratio_none_of_meta_none (s : AMM)
    (h : s.token0.metadata = none ∨ s.token1.metadata = none) :
    get_ratio s = none := by
  rcases h with h | h
  · simp [get_ratio, h]
  · cases h0 : s.token0.metadata <;> simp [get_ratio, h0, h]

/-- Inversion of a successful get_ratio: both powers of ten and the
product of the normalized balances fit in u128, and the value is that
product. -/
lemma get_ratio_some_inv (s : AMM) (m0 m1 : TokenMetadata) (v : Nat)
    (h0 : s.token0.metadata = some m0) (h1 : s.token1.metadata = some m1)
    (h : get_ratio s = some v) :
    10 ^ m0.decimals < u128Bound ∧ 10 ^ m1.decimals < u128Bound ∧
    (s.token0.balance / 10 ^ m0.decimals) *
      (s.token1.balance / 10 ^ m1.decimals) < u128Bound ∧
    v = (s.token0.balance / 10 ^ m0.decimals) *
      (s.token1.balance / 10 ^ m1.decimals) := by
  by_cases hp0 : 10 ^ m0.decimals < u128Bound
  · by_cases hp1 : 10 ^ m1.decimals < u128Bound
    · by_cases hprod : (s.token0.balance / 10 ^ m0.decimals) *
          (s.token1.balance / 10 ^ m1.decimals) < u128Bound
      · simp [get_ratio, h0, h1, checkedPow10, checkedMul, hp0, hp1,
          hprod] at h
        exact ⟨hp0, hp1, hprod, h.symm⟩
      · simp [get_ratio, h0, h1, checkedPow10, checkedMul, hp0, hp1,
          hprod] at h
    · simp [get_ratio, h0, h1, checkedPow10, hp0, hp1] at h
  · simp [get_ratio, h0, h1, checkedPow10, hp0] at h

/-- C9 counterexample: a pool with both metadata set but 39 decimals on
slot 0 makes get_ratio abort (the plain u128 power of ten overflows)
instead of returning the normalized product the claim promises. -/
theorem C9_counterexample_decimals39_aborts :
    poolDecimals39.token0.metadata.isSome = true ∧
    poolDecimals39.token1.metadata.isSome = true ∧
    get_ratio poolDecimals39 = none :=
  ⟨rfl, rfl, by decide⟩

/-- C9 amended: when both slots' metadata are set and the two powers of
ten and the product of the normalized balances all fit in u128, get_ratio
returns exactly that product; the spec's example pool yields 1000; and
with either slot's metadata unset get_ratio fails (aborts) instead of
returning a value. -/
theorem C9_ratio_formula_example_and_guard :
    (∀ s m0 m1, s.token0.metadata = some m0 → s.token1.metadata = some m1 →
      10 ^ m0.decimals < u128Bound → 10 ^ m1.decimals < u128Bound →
      (s.token0.balance / 10 ^ m0.decimals) *
        (s.token1.balance / 10 ^ m1.decimals) < u128Bound →
      get_ratio s = some ((s.token0.balance / 10 ^ m0.decimals) *
        (s.token1.balance / 10 ^ m1.decimals))) ∧
    get_ratio poolRatioExample = some 1000 ∧
    (∀ s, s.token0.metadata = none ∨ s.token1.metadata = none →
      get_ratio s = none) :=
  ⟨fun s m0 m1 h0 h1 hp0 hp1 hprod =>
      get_ratio_eq_of_fits s m0 m1 h0 h1 hp0 hp1 hprod,
    by decide,
    fun s h => get_ratio_none_of_meta_none s h⟩

/-- C9 witness: the formula applied to the concrete small pool, 500 units
at 2 decimals against 5 units at 0 decimals, normalized product 25. -/
theorem C9_ratio_formula_example_and_guard_witness :
    get_ratio poolRatioSmall = some 25 := by
  have h := C9_ratio_formula_example_and_guard.1 poolRatioSmall
    { name := "A", symbol := "A", decimals := 2 }
    { name := "B", symbol := "B", decimals := 0 }
    rfl rfl (by decide) (by decide) (by decide)
  simpa [poolRatioSmall] using h

/-- C10: get_ratio is partial even with both metadata set — it aborts when
a slot declares 40 decimals (the power of ten overflows u128) and when the
normalized balances multiply past the u128 maximum — and whenever it does
return a value, the powers and the product fit in u128 and the value is
the exact product of the normalized balances, which conversely is returned
whenever those quantities fit. -/
theorem C10_ratio_partial_exact :
    get_ratio poolDecimals40 = none ∧
    get_ratio poolProductOverflow = none ∧
    (∀ s m0 m1 v, s.token0.metadata = some m0 →
      s.token1.metadata = some m1 → get_ratio s = some v →
      10 ^ m0.decimals < u128Bound ∧ 10 ^ m1.decimals < u128Bound ∧
      (s.token0.balance / 10 ^ m0.decimals) *
        (s.token1.balance / 10 ^ m1.decimals) < u128Bound ∧
      v = (s.token0.balance / 10 ^ m0.decimals) *
        (s.token1.balance / 10 ^ m1.decimals)) ∧
    (∀ s m0 m1, s.token0.metadata = some m0 → s.token1.metadata = some m1 →
      10 ^ m0.decimals < u128Bound → 10 ^ m1.decimals < u128Bound →
      (s.token0.balance / 10 ^ m0.decimals) *
        (s.token1.balance / 10 ^ m1.decimals) < u128Bound →
      get_ratio s = some ((s.token0.balance / 10 ^ m0.decimals) *
        (s.token1.balance / 10 ^ m1.decimals))) :=
  ⟨by decide, by decide,
    fun s m0 m1 v h0 h1 h => get_ratio_some_inv s m0 m1 v h0 h1 h,
    fun s m0 m1 h0 h1 hp0 hp1 hprod =>
      get_ratio_eq_of_fits s m0 m1 h0 h1 hp0 hp1 hprod⟩

/-- C10 witness: the inversion applied to the concrete small pool, whose
ratio evaluates to 25. -/
theorem C10_ratio_partial_exact_witness :
    10 ^ (2 : Nat) < u128Bound ∧ 10 ^ (0 : Nat) < u128Bound ∧
    (poolRatioSmall.token0.balance / 10 ^ (2 : Nat)) *
      (poolRatioSmall.token1.balance / 10 ^ (0 : Nat)) < u128Bound ∧
    (25 : Nat) = (poolRatioSmall.token0.balance / 10 ^ (2 : Nat)) *
      (poolRatioSmall.token1.balance / 10 ^ (0 : Nat)) :=
  C10_ratio_partial_exact.2.2.1 poolRatioSmall
    { name := "A", symbol := "A", decimals := 2 }
    { name := "B", symbol := "B", decimals := 0 } 25 rfl rfl (by decide)
